import Mathlib

/-!
Verification of the kube subnet manager (`src/subnet/kube/kube.go`).

The Go source coordinates per-node subnet leases through Kubernetes node
annotations.  We shallowly embed the lease-relevant state and operations:

* a `Node` carries the five lease-relevant annotations (each an
  `Option String`, mirroring a Go map where a key may be absent and a read
  of an absent key yields `""`), the remaining annotations, the pod CIDR
  string and the rest of the record (opaque here);
* `handleAddLeaseEvent` / `handleUpdateLeaseEvent` model the informer
  callbacks, with the channel send `ksm.events <- e` modelled as appending
  to an explicit event queue;
* `acquireLease` models `AcquireLease`; the conditional patch is modelled
  as an `Option Node` component of the result (`some n'` means the branch
  issuing `Nodes().Patch` ran, with `n'` the post-update node that the
  strategic-merge patch is computed from; `none` means the write was
  skipped);
* `WatchLeasesStep` models the `select` in `WatchLeases` as a step
  relation: the receive branch is enabled whenever the queue is nonempty,
  the ctx-done branch whenever cancellation has fired; when both are
  enabled Go picks one pseudo-randomly, so both steps are permitted.

Wall-clock time is passed in as an explicit `now : Nat` (nanoseconds),
matching the single `time.Now()` observation in `AcquireLease`.
-/

/-- Modelled from the spec: an IPv4 address (`ip.IP4` from the repository's
`pkg/ip`, which is not under `src/`), stored as the usual 32-bit value. -/
structure IP4 where
  val : Nat
  deriving DecidableEq

/-- Modelled from the spec: the dotted-quad rendering `a.b.c.d` produced by
`ip.IP4.String`. -/
def IP4.toString (ip : IP4) : String :=
  Nat.repr (ip.val / 16777216 % 256) ++ "." ++ Nat.repr (ip.val / 65536 % 256) ++ "."
    ++ Nat.repr (ip.val / 256 % 256) ++ "." ++ Nat.repr (ip.val % 256)

/-- Modelled from the spec: a CIDR block (`ip.IP4Net`), a network address
together with a mask length. -/
structure IP4Net where
  ip : IP4
  prefixLen : Nat
  deriving DecidableEq

/-- Split a character list at every occurrence of `c` (helper for the
modelled parsers). -/
def splitOnChar (c : Char) : List Char → List (List Char)
  | [] => [[]]
  | x :: xs =>
    if x = c then [] :: splitOnChar c xs
    else
      match splitOnChar c xs with
      | [] => [[x]]
      | y :: ys => (x :: y) :: ys

/-- Accumulator loop for `digitsToNat`. -/
def digitsToNatGo : List Char → Nat → Option Nat
  | [], acc => some acc
  | c :: rest, acc =>
    if c.isDigit then digitsToNatGo rest (acc * 10 + (c.toNat - 48)) else none

/-- Decimal digits to a number; `none` on the empty list or a non-digit. -/
def digitsToNat : List Char → Option Nat
  | [] => none
  | cs => digitsToNatGo cs 0

/-- One octet of a dotted quad: decimal digits with value at most 255. -/
def parseOctet (cs : List Char) : Option Nat :=
  match digitsToNat cs with
  | some n => if n ≤ 255 then some n else none
  | none => none

/-- Modelled from the spec: parsing a dotted-quad IPv4 string
(`ip.ParseIP4`, not under `src/`; the spec requires that the public IP
"must parse as a valid dotted IPv4"). -/
def parseIP4 (s : String) : Option IP4 :=
  match (splitOnChar '.' s.data).map parseOctet with
  | [some a, some b, some c, some d] => some ⟨((a * 256 + b) * 256 + c) * 256 + d⟩
  | _ => none

/-- Modelled from the spec: parsing a CIDR string `a.b.c.d/n` into the
masked network block (`net.ParseCIDR` followed by `ip.FromIPNet`, neither
under `src/`; the spec says "the address block is parsed from the entry's
assigned CIDR"). -/
def parseCIDR (s : String) : Option IP4Net :=
  match splitOnChar '/' s.data with
  | [ipPart, lenPart] =>
    match parseIP4 (String.mk ipPart), digitsToNat lenPart with
    | some ip, some n =>
      if n ≤ 32 then some ⟨⟨ip.val / 2 ^ (32 - n) * 2 ^ (32 - n)⟩, n⟩ else none
    | _, _ => none
  | _ => none

/-- `subnet.LeaseAttrs` restricted to the fields this file reads:
`PublicIP`, `BackendType` and `BackendData` (a `json.RawMessage`, kept as
its raw string). -/
structure LeaseAttrs where
  publicIP : IP4
  backendType : String
  backendData : String
  deriving DecidableEq

/-- `subnet.Lease`: subnet, attributes and expiration time (nanoseconds). -/
structure Lease where
  subnet : IP4Net
  attrs : LeaseAttrs
  expiration : Nat
  deriving DecidableEq

/-- `subnet.EventType`: `EventAdded` or `EventRemoved`. -/
inductive EventType where
  | added
  | removed
  deriving DecidableEq

/-- `subnet.Event`: an event type together with a lease. -/
structure Event where
  eventType : EventType
  lease : Lease
  deriving DecidableEq

/-- The lease-relevant annotations of a node.  Each of the five keys used
by `kube.go` is an `Option String` (a Go map key may be absent); `other`
stands for every annotation under any other key. -/
structure Annotations where
  kubeSubnetManaged : Option String
  backendData : Option String
  backendType : Option String
  backendPublicIP : Option String
  backendPublicIPOverwrite : Option String
  other : List (String × String)
  deriving DecidableEq

/-- A Go map read `m[k]` yields the zero value `""` for an absent key. -/
def getOrEmpty : Option String → String
  | none => ""
  | some s => s

@[simp] theorem getOrEmpty_some (s : String) : getOrEmpty (some s) = s := rfl

@[simp] theorem getOrEmpty_none : getOrEmpty none = "" := rfl

/-- A `v1.Node` restricted to what `kube.go` touches: its name, its
annotations and `Spec.PodCIDR`; `otherData` stands for every remaining
field of the record (labels, status, ...), opaque here. -/
structure Node where
  name : String
  annotations : Annotations
  podCIDR : String
  otherData : String
  deriving DecidableEq

/-- `nodeToLease` (kube.go:298): parse the public-IP annotation, take the
backend type and data verbatim, parse the pod CIDR. `Expiration` is left
at its zero value. -/
def nodeToLease (n : Node) : Except String Lease :=
  match parseIP4 (getOrEmpty n.annotations.backendPublicIP) with
  | none => Except.error ("invalid IPv4 address: " ++ getOrEmpty n.annotations.backendPublicIP)
  | some pip =>
    match parseCIDR n.podCIDR with
    | none => Except.error ("invalid CIDR address: " ++ n.podCIDR)
    | some cidr =>
      Except.ok
        { subnet := cidr
          attrs :=
            { publicIP := pip
              backendType := getOrEmpty n.annotations.backendType
              backendData := getOrEmpty n.annotations.backendData }
          expiration := 0 }

/-- `handleAddLeaseEvent` (kube.go:176), also used for deletes with
`EventRemoved`.  The channel send is modelled as appending to `events`:
the function returns the queue after the callback. -/
def handleAddLeaseEvent (et : EventType) (n : Node) (events : List Event) : List Event :=
  match n.annotations.kubeSubnetManaged with
  | none => events
  | some s =>
    if s ≠ "true" then events
    else
      match nodeToLease n with
      | Except.error _ => events
      | Except.ok l => events ++ [{ eventType := et, lease := l }]

/-- `handleUpdateLeaseEvent` (kube.go:190): filter on the new node's
opt-in marker, suppress when the backend-data, backend-type and public-IP
annotations are all unchanged, otherwise translate the new node and emit
an `added` event. -/
def handleUpdateLeaseEvent (o n : Node) (events : List Event) : List Event :=
  match n.annotations.kubeSubnetManaged with
  | none => events
  | some s =>
    if s ≠ "true" then events
    else
      if getOrEmpty o.annotations.backendData = getOrEmpty n.annotations.backendData ∧
          getOrEmpty o.annotations.backendType = getOrEmpty n.annotations.backendType ∧
          getOrEmpty o.annotations.backendPublicIP = getOrEmpty n.annotations.backendPublicIP then
        events
      else
        match nodeToLease n with
        | Except.error _ => events
        | Except.ok l => events ++ [{ eventType := EventType.added, lease := l }]

/-- Nanoseconds per hour (`time.Hour`). -/
def nsPerHour : Nat := 3600 * 1000000000

/-- The annotation update performed inside the write branch of
`AcquireLease` (kube.go:241-253): set backend type and data from `attrs`,
set the public IP from the overwrite annotation when that is non-empty
(only touching the key when its current value differs), else from
`attrs.PublicIP`, and set the opt-in marker to `"true"`.  The overwrite
annotation itself and all other keys are left untouched. -/
def updateAnnotations (ann : Annotations) (attrs : LeaseAttrs) : Annotations :=
  { ann with
    backendType := some attrs.backendType
    backendData := some attrs.backendData
    backendPublicIP :=
      if getOrEmpty ann.backendPublicIPOverwrite ≠ "" then
        if getOrEmpty ann.backendPublicIP ≠ getOrEmpty ann.backendPublicIPOverwrite then
          some (getOrEmpty ann.backendPublicIPOverwrite)
        else ann.backendPublicIP
      else some attrs.publicIP.toString
    kubeSubnetManaged := some "true" }

/-- `AcquireLease` (kube.go:214).  The node-store lookup and deep copy are
modelled by taking the cached node `n` as an argument; `nodeName` is the
manager's node name (used in the error message);
`attrs.BackendData.MarshalJSON()` on a raw message returns the bytes
unchanged and never fails, so `bd` is `attrs.backendData` itself.  The
result pairs the conditional write (`some` of the patched node when the
guard at kube.go:236-240 fires, `none` otherwise) with the returned
lease. -/
def acquireLease (nodeName : String) (n : Node) (attrs : LeaseAttrs) (now : Nat) :
    Except String (Option Node × Lease) :=
  if n.podCIDR = "" then
    Except.error ("node \x22" ++ nodeName ++ "\x22 pod cidr not assigned")
  else
    match parseCIDR n.podCIDR with
    | none => Except.error ("invalid CIDR address: " ++ n.podCIDR)
    | some cidr =>
      Except.ok
        ((if getOrEmpty n.annotations.backendData ≠ attrs.backendData ∨
              getOrEmpty n.annotations.backendType ≠ attrs.backendType ∨
              getOrEmpty n.annotations.backendPublicIP ≠ attrs.publicIP.toString ∨
              getOrEmpty n.annotations.kubeSubnetManaged ≠ "true" ∨
              (getOrEmpty n.annotations.backendPublicIPOverwrite ≠ "" ∧
                getOrEmpty n.annotations.backendPublicIPOverwrite ≠ attrs.publicIP.toString) then
            some { n with annotations := updateAnnotations n.annotations attrs }
          else none),
          { subnet := cidr, attrs := attrs, expiration := now + 24 * nsPerHour })

/-- The patch issued by an `acquireLease` outcome: `some n'` when the
write branch ran, `none` when the write was skipped or the call failed
before reaching it. -/
def acquiredWrite : Except String (Option Node × Lease) → Option Node
  | Except.ok (w, _) => w
  | Except.error _ => none

/-- Modelled from the spec: `subnet.LeaseWatchResult` (not under `src/`)
restricted to its event list; `kube.go` only ever fills `Events`. -/
structure LeaseWatchResult where
  events : List Event
  deriving DecidableEq

/-- `WatchLeases` (kube.go:282) as a step relation over the event queue.
A step takes the queue and whether the cancellation signal has fired to
the returned `(LeaseWatchResult, error)` pair and the remaining queue.
`recv` is enabled whenever the queue is nonempty, `done` whenever the
signal has fired; Go's `select` chooses pseudo-randomly when both are
enabled, so both steps are permitted then.  Neither branch returns an
error. -/
inductive WatchLeasesStep :
    List Event → Bool → (LeaseWatchResult × Option String) × List Event → Prop where
  | recv (e : Event) (rest : List Event) (cancelled : Bool) :
      WatchLeasesStep (e :: rest) cancelled (({ events := [e] }, none), rest)
  | done (queue : List Event) :
      WatchLeasesStep queue true (({ events := [] }, none), queue)

/-! ### Sample values used by witnesses and counterexamples -/

/-- A fully opted-in sample node whose annotations match `sampleAttrs`. -/
def sampleNode : Node :=
  { name := "node1"
    annotations :=
      { kubeSubnetManaged := some "true"
        backendData := some "bd1"
        backendType := some "vxlan"
        backendPublicIP := some "1.1.1.1"
        backendPublicIPOverwrite := none
        other := [] }
    podCIDR := "10.1.0.0/24"
    otherData := "rest" }

/-- Sample lease attributes; the public IP is `1.1.1.1`. -/
def sampleAttrs : LeaseAttrs :=
  { publicIP := ⟨16843009⟩, backendType := "vxlan", backendData := "bd1" }

/-- `sampleNode` with the opt-in marker set to a value other than `"true"`. -/
def optOutNode : Node :=
  { sampleNode with
    annotations := { sampleNode.annotations with kubeSubnetManaged := some "false" } }

/-- `sampleNode` after its backend-data annotation changed to `"bd2"`. -/
def updatedNode : Node :=
  { sampleNode with
    annotations := { sampleNode.annotations with backendData := some "bd2" } }

/-- An opted-in node whose backend data differs from `sampleNode` but whose
public-IP annotation is absent, so `nodeToLease` fails on it. -/
def badIPNode : Node :=
  { sampleNode with
    annotations :=
      { sampleNode.annotations with backendData := some "bd2", backendPublicIP := none } }

/-- A node carrying a non-empty public-IP-override annotation `9.9.9.9`
that differs from `sampleAttrs.publicIP`; its public-IP annotation already
equals the override and every other compared annotation matches
`sampleAttrs`, so its annotations are a fixpoint of `updateAnnotations`. -/
def overrideNode : Node :=
  { sampleNode with
    annotations :=
      { sampleNode.annotations with
        backendPublicIP := some "9.9.9.9"
        backendPublicIPOverwrite := some "9.9.9.9" } }

/-- A node with no annotations at all and an assigned pod CIDR. -/
def freshNode : Node :=
  { name := "node1"
    annotations :=
      { kubeSubnetManaged := none
        backendData := none
        backendType := none
        backendPublicIP := none
        backendPublicIPOverwrite := none
        other := [("k", "v")] }
    podCIDR := "10.1.0.0/24"
    otherData := "rest" }

/-- `sampleNode` before the external allocator assigned a pod CIDR. -/
def unassignedNode : Node :=
  { sampleNode with podCIDR := "" }

/-! ### Claims about the event translator -/

/-- C2: for every add, update or delete notification whose entry lacks the
opt-in marker annotation, or whose marker value is any string other than
exactly `"true"`, no event is enqueued, regardless of the rest of the
entry's metadata (adds and deletes both go through
`handleAddLeaseEvent`, with the event type as the only difference). -/
theorem handleEvents_skip_unmarked (et : EventType) (o n : Node) (q : List Event)
    (h : n.annotations.kubeSubnetManaged ≠ some "true") :
    handleAddLeaseEvent et n q = q ∧ handleUpdateLeaseEvent o n q = q := by
  cases hm : n.annotations.kubeSubnetManaged with
  | none => simp [handleAddLeaseEvent, handleUpdateLeaseEvent, hm]
  | some s =>
    have hs : s ≠ "true" := by
      intro hss
      exact h (by rw [hm, hss])
    simp [handleAddLeaseEvent, handleUpdateLeaseEvent, hm, hs]

/-- Witness for C2: a node whose marker is `"false"` produces no event on
add, delete or update. -/
theorem handleEvents_skip_unmarked_witness :
    optOutNode.annotations.kubeSubnetManaged ≠ some "true" ∧
    (handleAddLeaseEvent EventType.added optOutNode [] = [] ∧
      handleUpdateLeaseEvent sampleNode optOutNode [] = []) :=
  ⟨by decide, handleEvents_skip_unmarked EventType.added sampleNode optOutNode [] (by decide)⟩

/-- C10: an update whose new entry lacks the marker or carries a value
other than `"true"` enqueues no event of any type, even when the old entry
was opted in — removing the marker via an update never yields a `removed`
event. -/
theorem handleUpdate_optout_no_event (o n : Node) (q : List Event)
    (_ho : o.annotations.kubeSubnetManaged = some "true")
    (hn : n.annotations.kubeSubnetManaged ≠ some "true") :
    handleUpdateLeaseEvent o n q = q := by
  cases hm : n.annotations.kubeSubnetManaged with
  | none => simp [handleUpdateLeaseEvent, hm]
  | some s =>
    have hs : s ≠ "true" := by
      intro hss
      exact hn (by rw [hm, hss])
    simp [handleUpdateLeaseEvent, hm, hs]

/-- Witness for C10: `sampleNode` is opted in; updating it to `optOutNode`
produces no event. -/
theorem handleUpdate_optout_no_event_witness :
    sampleNode.annotations.kubeSubnetManaged = some "true" ∧
    optOutNode.annotations.kubeSubnetManaged ≠ some "true" ∧
    handleUpdateLeaseEvent sampleNode optOutNode [] = [] :=
  ⟨by decide, by decide,
    handleUpdate_optout_no_event sampleNode optOutNode [] (by decide) (by decide)⟩

/-- Counterexample to C3 as stated: `badIPNode` is opted in and its
backend-data annotation differs from `sampleNode`'s, yet the update
enqueues no event at all, because the new entry fails to translate (its
public-IP annotation is absent, hence not a valid dotted IPv4). -/
theorem handleUpdate_changed_counterexample :
    badIPNode.annotations.kubeSubnetManaged = some "true" ∧
    getOrEmpty sampleNode.annotations.backendData ≠
      getOrEmpty badIPNode.annotations.backendData ∧
    handleUpdateLeaseEvent sampleNode badIPNode [] = [] := by
  decide

/-- C3 (amended): for an update on an opted-in entry, if backend-data,
backend-type and public-IP are all unchanged, no event is enqueued even if
other metadata changed; if any of the three differs, exactly one `added`
event (never a distinct update type) carrying the translation of the new
entry is enqueued when that translation succeeds, and none when it
fails. -/
theorem handleUpdate_suppresses_unchanged (o n : Node) (q : List Event)
    (hmark : n.annotations.kubeSubnetManaged = some "true") :
    (getOrEmpty o.annotations.backendData = getOrEmpty n.annotations.backendData ∧
        getOrEmpty o.annotations.backendType = getOrEmpty n.annotations.backendType ∧
        getOrEmpty o.annotations.backendPublicIP = getOrEmpty n.annotations.backendPublicIP →
      handleUpdateLeaseEvent o n q = q) ∧
    (¬ (getOrEmpty o.annotations.backendData = getOrEmpty n.annotations.backendData ∧
        getOrEmpty o.annotations.backendType = getOrEmpty n.annotations.backendType ∧
        getOrEmpty o.annotations.backendPublicIP = getOrEmpty n.annotations.backendPublicIP) →
      handleUpdateLeaseEvent o n q =
        q ++ (match nodeToLease n with
              | Except.ok l => [{ eventType := EventType.added, lease := l }]
              | Except.error _ => [])) := by
  unfold handleUpdateLeaseEvent
  rw [hmark]
  simp only [ne_eq, not_true_eq_false, if_false, ite_not]
  constructor
  · intro htrip
    rw [if_pos htrip]
  · intro htrip
    rw [if_neg htrip]
    cases hl : nodeToLease n with
    | error msg => simp
    | ok l => simp

/-- Witness for C3 (amended): changing only the backend-data annotation of
the opted-in `sampleNode` enqueues exactly one `added` event carrying the
translation of the new entry. -/
theorem handleUpdate_suppresses_unchanged_witness :
    updatedNode.annotations.kubeSubnetManaged = some "true" ∧
    (¬ (getOrEmpty sampleNode.annotations.backendData =
          getOrEmpty updatedNode.annotations.backendData ∧
        getOrEmpty sampleNode.annotations.backendType =
          getOrEmpty updatedNode.annotations.backendType ∧
        getOrEmpty sampleNode.annotations.backendPublicIP =
          getOrEmpty updatedNode.annotations.backendPublicIP) →
      handleUpdateLeaseEvent sampleNode updatedNode [] =
        [] ++ (match nodeToLease updatedNode with
               | Except.ok l => [{ eventType := EventType.added, lease := l }]
               | Except.error _ => [])) :=
  ⟨by decide,
    (handleUpdate_suppresses_unchanged sampleNode updatedNode [] (by decide)).2⟩

/-! ### Helper lemmas about `acquireLease` -/

theorem parseCIDR_empty : parseCIDR "" = none := rfl

/-- Shape of `acquireLease` once the pod CIDR is present and parses: the
conditional write paired with the returned lease. -/
theorem acquireLease_ok (nodeName : String) (n : Node) (attrs : LeaseAttrs) (now : Nat)
    (cidr : IP4Net) (hcne : n.podCIDR ≠ "") (hparse : parseCIDR n.podCIDR = some cidr) :
    acquireLease nodeName n attrs now =
      Except.ok
        ((if getOrEmpty n.annotations.backendData ≠ attrs.backendData ∨
              getOrEmpty n.annotations.backendType ≠ attrs.backendType ∨
              getOrEmpty n.annotations.backendPublicIP ≠ attrs.publicIP.toString ∨
              getOrEmpty n.annotations.kubeSubnetManaged ≠ "true" ∨
              (getOrEmpty n.annotations.backendPublicIPOverwrite ≠ "" ∧
                getOrEmpty n.annotations.backendPublicIPOverwrite ≠ attrs.publicIP.toString) then
            some { n with annotations := updateAnnotations n.annotations attrs }
          else none),
          { subnet := cidr, attrs := attrs, expiration := now + 24 * nsPerHour }) := by
  unfold acquireLease
  rw [if_neg hcne, hparse]

/-- Whenever `acquireLease` succeeds, the lease is built from the parsed
pod CIDR, the caller's attributes and the 24-hour window. -/
theorem acquireLease_success_shape (nodeName : String) (n : Node) (attrs : LeaseAttrs)
    (now : Nat) (w : Option Node) (l : Lease)
    (h : acquireLease nodeName n attrs now = Except.ok (w, l)) :
    parseCIDR n.podCIDR = some l.subnet ∧ l.attrs = attrs ∧
      l.expiration = now + 24 * nsPerHour := by
  by_cases hc : n.podCIDR = ""
  · unfold acquireLease at h
    rw [if_pos hc] at h
    cases h
  · cases hp : parseCIDR n.podCIDR with
    | none =>
      unfold acquireLease at h
      rw [if_neg hc, hp] at h
      cases h
    | some cidr =>
      rw [acquireLease_ok nodeName n attrs now cidr hc hp] at h
      injection h with h2
      simp only [Prod.mk.injEq] at h2
      obtain ⟨hw, hl⟩ := h2
      refine ⟨?_, ?_, ?_⟩ <;> rw [← hl]

/-- Whenever `acquireLease` issues a write, the patched node is the cached
node with exactly the annotation update applied, and the lease is as in
`acquireLease_success_shape`. -/
theorem acquireLease_write_shape (nodeName : String) (n : Node) (attrs : LeaseAttrs)
    (now : Nat) (n' : Node) (l : Lease)
    (h : acquireLease nodeName n attrs now = Except.ok (some n', l)) :
    n' = { n with annotations := updateAnnotations n.annotations attrs } ∧
      parseCIDR n.podCIDR = some l.subnet ∧ l.attrs = attrs ∧
      l.expiration = now + 24 * nsPerHour := by
  by_cases hc : n.podCIDR = ""
  · unfold acquireLease at h
    rw [if_pos hc] at h
    cases h
  · cases hp : parseCIDR n.podCIDR with
    | none =>
      unfold acquireLease at h
      rw [if_neg hc, hp] at h
      cases h
    | some cidr =>
      rw [acquireLease_ok nodeName n attrs now cidr hc hp] at h
      injection h with h2
      simp only [Prod.mk.injEq] at h2
      obtain ⟨hw, hl⟩ := h2
      refine ⟨?_, ?_, ?_, ?_⟩
      · split at hw
        · injection hw with hw2
          exact hw2.symm
        · cases hw
      · rw [← hl]
      · rw [← hl]
      · rw [← hl]

/-- The annotation update never touches the overwrite key or the other
annotations. -/
theorem updateAnnotations_frame (ann : Annotations) (attrs : LeaseAttrs) :
    (updateAnnotations ann attrs).backendPublicIPOverwrite = ann.backendPublicIPOverwrite ∧
      (updateAnnotations ann attrs).other = ann.other :=
  ⟨rfl, rfl⟩

/-- When a non-empty overwrite annotation `V` is present, the annotation
update always leaves the public-IP annotation equal to `V`. -/
theorem updateAnnotations_overridden (ann : Annotations) (attrs : LeaseAttrs) (V : String)
    (hov : ann.backendPublicIPOverwrite = some V) (hne : V ≠ "") :
    (updateAnnotations ann attrs).backendPublicIP = some V := by
  unfold updateAnnotations
  simp only [hov, getOrEmpty_some]
  rw [if_pos hne]
  by_cases hcur : getOrEmpty ann.backendPublicIP ≠ V
  · rw [if_pos hcur]
  · rw [if_neg hcur]
    push_neg at hcur
    cases hc : ann.backendPublicIP with
    | none =>
      rw [hc] at hcur
      exact absurd hcur.symm hne
    | some x =>
      rw [hc] at hcur
      rw [getOrEmpty_some] at hcur
      rw [hcur]

/-! ### Claims about the lease acquirer -/

/-- C6: when the cached entry has no assigned pod CIDR, `AcquireLease`
fails with the "not yet assigned" error and issues no directory write. -/
theorem acquireLease_unassigned (nodeName : String) (n : Node) (attrs : LeaseAttrs)
    (now : Nat) (h : n.podCIDR = "") :
    acquireLease nodeName n attrs now =
      Except.error ("node \x22" ++ nodeName ++ "\x22 pod cidr not assigned") ∧
    acquiredWrite (acquireLease nodeName n attrs now) = none := by
  have he : acquireLease nodeName n attrs now =
      Except.error ("node \x22" ++ nodeName ++ "\x22 pod cidr not assigned") := by
    unfold acquireLease
    rw [if_pos h]
  refine ⟨he, ?_⟩
  rw [he]
  rfl

/-- Witness for C6: `unassignedNode` has an empty pod CIDR, so the call
errors and writes nothing. -/
theorem acquireLease_unassigned_witness :
    unassignedNode.podCIDR = "" ∧
    (acquireLease "node1" unassignedNode sampleAttrs 0 =
        Except.error ("node \x22node1\x22 pod cidr not assigned") ∧
      acquiredWrite (acquireLease "node1" unassignedNode sampleAttrs 0) = none) :=
  ⟨rfl, acquireLease_unassigned "node1" unassignedNode sampleAttrs 0 rfl⟩

/-- C5: every successful `AcquireLease` returns a lease whose subnet is
the CIDR parsed from the snapshot entry's pod CIDR, whose attributes are
exactly the caller's (not re-read from the server), and whose expiration
is the call time plus 24 hours. -/
theorem acquireLease_returned_lease (nodeName : String) (n : Node) (attrs : LeaseAttrs)
    (now : Nat) (w : Option Node) (l : Lease)
    (h : acquireLease nodeName n attrs now = Except.ok (w, l)) :
    parseCIDR n.podCIDR = some l.subnet ∧ l.attrs = attrs ∧
      l.expiration = now + 24 * nsPerHour :=
  acquireLease_success_shape nodeName n attrs now w l h

/-- Witness for C5: the call on `sampleNode` succeeds without a write and
the returned lease carries the parsed subnet, the caller's attributes and
a 24-hour expiration. -/
theorem acquireLease_returned_lease_witness :
    acquireLease "node1" sampleNode sampleAttrs 5 =
      Except.ok (none,
        { subnet := ⟨⟨167837696⟩, 24⟩, attrs := sampleAttrs,
          expiration := 5 + 24 * nsPerHour }) ∧
    (parseCIDR sampleNode.podCIDR = some (⟨⟨167837696⟩, 24⟩ : IP4Net) ∧
      sampleAttrs = sampleAttrs ∧ (5 + 24 * nsPerHour : Nat) = 5 + 24 * nsPerHour) :=
  ⟨rfl,
    acquireLease_returned_lease "node1" sampleNode sampleAttrs 5 none
      { subnet := ⟨⟨167837696⟩, 24⟩, attrs := sampleAttrs, expiration := 5 + 24 * nsPerHour }
      rfl⟩

/-- C4: when the cached entry carries a non-empty public-IP-override
annotation `V` differing from `attrs.PublicIP`, the call writes, and the
metadata written sets the public-IP annotation to `V`, not to
`attrs.PublicIP`. -/
theorem acquireLease_override_written (nodeName : String) (n : Node) (attrs : LeaseAttrs)
    (now : Nat) (V : String) (cidr : IP4Net)
    (hov : n.annotations.backendPublicIPOverwrite = some V)
    (hne : V ≠ "") (hdiff : V ≠ attrs.publicIP.toString)
    (hparse : parseCIDR n.podCIDR = some cidr) :
    acquireLease nodeName n attrs now =
      Except.ok (some { n with annotations := updateAnnotations n.annotations attrs },
        { subnet := cidr, attrs := attrs, expiration := now + 24 * nsPerHour }) ∧
    (updateAnnotations n.annotations attrs).backendPublicIP = some V ∧
    (updateAnnotations n.annotations attrs).backendPublicIP ≠ some attrs.publicIP.toString := by
  have hcne : n.podCIDR ≠ "" := by
    intro he
    rw [he, parseCIDR_empty] at hparse
    cases hparse
  have hwr : (updateAnnotations n.annotations attrs).backendPublicIP = some V :=
    updateAnnotations_overridden n.annotations attrs V hov hne
  refine ⟨?_, hwr, ?_⟩
  · rw [acquireLease_ok nodeName n attrs now cidr hcne hparse]
    rw [if_pos]
    exact Or.inr (Or.inr (Or.inr (Or.inr (by rw [hov]; exact ⟨by simpa using hne, by simpa using hdiff⟩))))
  · rw [hwr]
    intro hcontra
    injection hcontra with hcontra2
    exact hdiff hcontra2

/-- Witness for C4: `overrideNode` carries the override `9.9.9.9`, which
differs from `sampleAttrs.publicIP` (`1.1.1.1`); the written annotation is
the override value. -/
theorem acquireLease_override_written_witness :
    overrideNode.annotations.backendPublicIPOverwrite = some "9.9.9.9" ∧
    "9.9.9.9" ≠ "" ∧
    "9.9.9.9" ≠ sampleAttrs.publicIP.toString ∧
    parseCIDR overrideNode.podCIDR = some (⟨⟨167837696⟩, 24⟩ : IP4Net) ∧
    (updateAnnotations overrideNode.annotations sampleAttrs).backendPublicIP =
      some "9.9.9.9" :=
  ⟨by decide, by decide, by decide, by decide,
    (acquireLease_override_written "node1" overrideNode sampleAttrs 0 "9.9.9.9"
      ⟨⟨167837696⟩, 24⟩ (by decide) (by decide) (by decide) (by decide)).2.1⟩

/-- C9: when a write happens under a non-empty override `V` differing from
`attrs.PublicIP`, the returned lease still carries `attrs.PublicIP` while
the written public-IP annotation carries `V`, so the two differ. -/
theorem acquireLease_override_lease_mismatch (nodeName : String) (n : Node)
    (attrs : LeaseAttrs) (now : Nat) (V : String) (n' : Node) (l : Lease)
    (hov : n.annotations.backendPublicIPOverwrite = some V)
    (hne : V ≠ "") (hdiff : V ≠ attrs.publicIP.toString)
    (h : acquireLease nodeName n attrs now = Except.ok (some n', l)) :
    l.attrs.publicIP = attrs.publicIP ∧
    n'.annotations.backendPublicIP = some V ∧
    getOrEmpty n'.annotations.backendPublicIP ≠ l.attrs.publicIP.toString := by
  obtain ⟨hn', -, hattrs, -⟩ := acquireLease_write_shape nodeName n attrs now n' l h
  subst hn'
  have hwr : (updateAnnotations n.annotations attrs).backendPublicIP = some V :=
    updateAnnotations_overridden n.annotations attrs V hov hne
  refine ⟨by rw [hattrs], hwr, ?_⟩
  rw [hattrs]
  show getOrEmpty (updateAnnotations n.annotations attrs).backendPublicIP ≠ _
  rw [hwr, getOrEmpty_some]
  exact hdiff

/-- Witness for C9: on `overrideNode`, the write carries `9.9.9.9` while
the returned lease's public IP renders as `1.1.1.1`. -/
theorem acquireLease_override_lease_mismatch_witness :
    overrideNode.annotations.backendPublicIPOverwrite = some "9.9.9.9" ∧
    "9.9.9.9" ≠ "" ∧
    "9.9.9.9" ≠ sampleAttrs.publicIP.toString ∧
    acquireLease "node1" overrideNode sampleAttrs 0 =
      Except.ok (some { overrideNode with
          annotations := updateAnnotations overrideNode.annotations sampleAttrs },
        { subnet := ⟨⟨167837696⟩, 24⟩, attrs := sampleAttrs,
          expiration := 0 + 24 * nsPerHour }) ∧
    (({ subnet := ⟨⟨167837696⟩, 24⟩, attrs := sampleAttrs,
          expiration := 0 + 24 * nsPerHour } : Lease).attrs.publicIP = sampleAttrs.publicIP ∧
      ({ overrideNode with
          annotations :=
            updateAnnotations overrideNode.annotations sampleAttrs }).annotations.backendPublicIP =
        some "9.9.9.9" ∧
      getOrEmpty ({ overrideNode with
          annotations :=
            updateAnnotations overrideNode.annotations sampleAttrs }).annotations.backendPublicIP ≠
        ({ subnet := ⟨⟨167837696⟩, 24⟩, attrs := sampleAttrs,
            expiration := 0 + 24 * nsPerHour } : Lease).attrs.publicIP.toString) :=
  ⟨by decide, by decide, by decide, rfl,
    acquireLease_override_lease_mismatch "node1" overrideNode sampleAttrs 0 "9.9.9.9"
      { overrideNode with
          annotations := updateAnnotations overrideNode.annotations sampleAttrs }
      { subnet := ⟨⟨167837696⟩, 24⟩, attrs := sampleAttrs, expiration := 0 + 24 * nsPerHour }
      (by decide) (by decide) (by decide) rfl⟩

/-- C8: every write issued by `AcquireLease` changes at most the
backend-type, backend-data, public-IP and opt-in-marker annotation keys;
the public-IP-override annotation, the other annotations, and every other
field of the entry are left unchanged. -/
theorem acquireLease_write_frame (nodeName : String) (n : Node) (attrs : LeaseAttrs)
    (now : Nat) (n' : Node) (l : Lease)
    (h : acquireLease nodeName n attrs now = Except.ok (some n', l)) :
    n'.name = n.name ∧ n'.podCIDR = n.podCIDR ∧ n'.otherData = n.otherData ∧
    n'.annotations.backendPublicIPOverwrite = n.annotations.backendPublicIPOverwrite ∧
    n'.annotations.other = n.annotations.other := by
  obtain ⟨hn', -, -, -⟩ := acquireLease_write_shape nodeName n attrs now n' l h
  subst hn'
  exact ⟨rfl, rfl, rfl, rfl, rfl⟩

/-- Witness for C8: the first call on `freshNode` (no annotations yet)
issues a write; the overwrite key, the other annotations and the other
fields are untouched. -/
theorem acquireLease_write_frame_witness :
    acquireLease "node1" freshNode sampleAttrs 0 =
      Except.ok (some { freshNode with
          annotations := updateAnnotations freshNode.annotations sampleAttrs },
        { subnet := ⟨⟨167837696⟩, 24⟩, attrs := sampleAttrs,
          expiration := 0 + 24 * nsPerHour }) ∧
    (({ freshNode with
          annotations := updateAnnotations freshNode.annotations sampleAttrs } : Node).name =
        freshNode.name ∧
      ({ freshNode with
          annotations := updateAnnotations freshNode.annotations sampleAttrs } : Node).podCIDR =
        freshNode.podCIDR ∧
      ({ freshNode with
          annotations := updateAnnotations freshNode.annotations sampleAttrs } : Node).otherData =
        freshNode.otherData ∧
      ({ freshNode with
          annotations :=
            updateAnnotations freshNode.annotations sampleAttrs } : Node).annotations.backendPublicIPOverwrite =
        freshNode.annotations.backendPublicIPOverwrite ∧
      ({ freshNode with
          annotations :=
            updateAnnotations freshNode.annotations sampleAttrs } : Node).annotations.other =
        freshNode.annotations.other) :=
  ⟨rfl,
    acquireLease_write_frame "node1" freshNode sampleAttrs 0
      { freshNode with annotations := updateAnnotations freshNode.annotations sampleAttrs }
      { subnet := ⟨⟨167837696⟩, 24⟩, attrs := sampleAttrs, expiration := 0 + 24 * nsPerHour }
      rfl⟩

/-- Counterexample to C1 as stated: `overrideNode`'s annotations already
reflect the desired post-write state — they are a fixpoint of the
annotation update for `sampleAttrs`, exactly the state a first identical
call leaves behind — yet a repeated call still reaches the patch branch
and issues a patch operation (whose computed diff is empty: the patched
node equals the cached node).  The guard at kube.go:238 compares the
public-IP annotation against `attrs.PublicIP`, although the write sets
that annotation to the override value, so with a non-empty override
differing from `attrs.PublicIP` the guard fires on every call. -/
theorem acquireLease_idempotent_counterexample :
    updateAnnotations overrideNode.annotations sampleAttrs = overrideNode.annotations ∧
    acquiredWrite (acquireLease "node1" overrideNode sampleAttrs 0) = some overrideNode := by
  decide

/-- C1 (amended): a call made when the entry's metadata already reflects
the desired post-write state issues zero patch operations, provided the
public-IP-override annotation is empty or equal to `attrs.PublicIP`; with
a non-empty override differing from `attrs.PublicIP`, a patch (with an
empty diff) is issued on every call. -/
theorem acquireLease_idempotent (nodeName : String) (n : Node) (attrs : LeaseAttrs)
    (now : Nat)
    (hfix : updateAnnotations n.annotations attrs = n.annotations)
    (hover : getOrEmpty n.annotations.backendPublicIPOverwrite = "" ∨
        getOrEmpty n.annotations.backendPublicIPOverwrite = attrs.publicIP.toString) :
    acquiredWrite (acquireLease nodeName n attrs now) = none := by
  have hbd : n.annotations.backendData = some attrs.backendData := by
    rw [hfix.symm]
    rfl
  have hbt : n.annotations.backendType = some attrs.backendType := by
    rw [hfix.symm]
    rfl
  have hkm : n.annotations.kubeSubnetManaged = some "true" := by
    rw [hfix.symm]
    rfl
  have hip : getOrEmpty n.annotations.backendPublicIP = attrs.publicIP.toString := by
    by_cases h0 : getOrEmpty n.annotations.backendPublicIPOverwrite = ""
    · have hproj := congrArg Annotations.backendPublicIP hfix
      simp only [updateAnnotations] at hproj
      rw [if_neg (by simpa using h0)] at hproj
      rw [← hproj, getOrEmpty_some]
    · have hEq : getOrEmpty n.annotations.backendPublicIPOverwrite = attrs.publicIP.toString :=
        hover.resolve_left h0
      have hproj := congrArg Annotations.backendPublicIP hfix
      simp only [updateAnnotations] at hproj
      rw [if_pos h0] at hproj
      by_cases hneq :
          getOrEmpty n.annotations.backendPublicIP ≠
            getOrEmpty n.annotations.backendPublicIPOverwrite
      · rw [if_pos hneq] at hproj
        exact absurd (by rw [← hproj, getOrEmpty_some]) hneq
      · push_neg at hneq
        rw [hneq, hEq]
  have hcond :
      ¬ (getOrEmpty n.annotations.backendData ≠ attrs.backendData ∨
          getOrEmpty n.annotations.backendType ≠ attrs.backendType ∨
          getOrEmpty n.annotations.backendPublicIP ≠ attrs.publicIP.toString ∨
          getOrEmpty n.annotations.kubeSubnetManaged ≠ "true" ∨
          (getOrEmpty n.annotations.backendPublicIPOverwrite ≠ "" ∧
            getOrEmpty n.annotations.backendPublicIPOverwrite ≠ attrs.publicIP.toString)) := by
    push_neg
    refine ⟨?_, ?_, hip, ?_, ?_⟩
    · rw [hbd, getOrEmpty_some]
    · rw [hbt, getOrEmpty_some]
    · rw [hkm, getOrEmpty_some]
    · intro hne2
      exact hover.resolve_left hne2
  by_cases hc : n.podCIDR = ""
  · unfold acquireLease
    rw [if_pos hc]
    rfl
  · cases hp : parseCIDR n.podCIDR with
    | none =>
      unfold acquireLease
      rw [if_neg hc, hp]
      rfl
    | some cidr =>
      rw [acquireLease_ok nodeName n attrs now cidr hc hp]
      rw [if_neg hcond]
      rfl

/-- Witness for C1 (amended): `sampleNode` reflects the post-write state
for `sampleAttrs` and carries no override; the repeated call issues no
patch. -/
theorem acquireLease_idempotent_witness :
    updateAnnotations sampleNode.annotations sampleAttrs = sampleNode.annotations ∧
    (getOrEmpty sampleNode.annotations.backendPublicIPOverwrite = "" ∨
      getOrEmpty sampleNode.annotations.backendPublicIPOverwrite =
        sampleAttrs.publicIP.toString) ∧
    acquiredWrite (acquireLease "node1" sampleNode sampleAttrs 0) = none :=
  ⟨by decide, by decide,
    acquireLease_idempotent "node1" sampleNode sampleAttrs 0 (by decide) (by decide)⟩

/-! ### Claims about the watch pull API -/

/-- A sample event, as produced by translating `sampleNode`. -/
def sampleEvent : Event :=
  { eventType := EventType.added
    lease := { subnet := ⟨⟨167837696⟩, 24⟩, attrs := sampleAttrs, expiration := 0 } }

/-- Counterexample to C7 as stated: with an event queued and the
cancellation signal fired, Go's `select` may take the ctx-done branch, so
the call can return the empty result instead of wrapping the available
event (the claim's second clause fails when both branches are ready). -/
theorem watchLeases_available_counterexample :
    WatchLeasesStep [sampleEvent] true (({ events := [] }, none), [sampleEvent]) ∧
    ({ events := [] } : LeaseWatchResult).events ≠ [sampleEvent] :=
  ⟨WatchLeasesStep.done [sampleEvent], by decide⟩

/-- C7 (amended): every `WatchLeases` step returns a nil error; if the
cancellation signal fires while no event is available, the result has an
empty event list and the queue is unchanged; if an event is available and
cancellation has not fired, the call returns exactly the dequeued head
event; when both are ready, either branch may be taken. -/
theorem watchLeases_step_spec (q : List Event) (c : Bool)
    (r : (LeaseWatchResult × Option String) × List Event)
    (h : WatchLeasesStep q c r) :
    r.1.2 = none ∧
    (q = [] → c = true ∧ r = (({ events := [] }, none), q)) ∧
    (c = false → q ≠ [] ∧ r.1.1.events = q.take 1 ∧ r.2 = q.drop 1) := by
  cases h with
  | recv e rest cancelled =>
    refine ⟨rfl, ?_, ?_⟩
    · intro he
      cases he
    · intro hc
      exact ⟨by simp, rfl, rfl⟩
  | done queue =>
    refine ⟨rfl, ?_, ?_⟩
    · intro he
      exact ⟨rfl, rfl⟩
    · intro hc
      cases hc

/-- Witness for C7 (amended): a step from a one-event queue without
cancellation dequeues exactly that event with a nil error. -/
theorem watchLeases_step_spec_witness :
    ((({ events := [sampleEvent] }, none), ([] : List Event)) :
        (LeaseWatchResult × Option String) × List Event).1.2 = none ∧
    (([sampleEvent] : List Event) = [] →
      false = true ∧
        ((({ events := [sampleEvent] }, none), ([] : List Event)) :
            (LeaseWatchResult × Option String) × List Event) =
          (({ events := [] }, none), [sampleEvent])) ∧
    (false = false →
      ([sampleEvent] : List Event) ≠ [] ∧
        ((({ events := [sampleEvent] }, none), ([] : List Event)) :
            (LeaseWatchResult × Option String) × List Event).1.1.events =
          ([sampleEvent] : List Event).take 1 ∧
        ((({ events := [sampleEvent] }, none), ([] : List Event)) :
            (LeaseWatchResult × Option String) × List Event).2 =
          ([sampleEvent] : List Event).drop 1) :=
  watchLeases_step_spec [sampleEvent] false (({ events := [sampleEvent] }, none), [])
    (WatchLeasesStep.recv sampleEvent [] false)
